import Mathlib

/-
Verification of the conditional-compilation patch described in
src/ios/Patches/debug_string_convertible_patch.h.

The file documents two C++ code blocks: the original, unguarded
specialization of std::char_traits<unsigned char>, and the patched block,
which wraps the same specialization in an `ifndef` conditional on the
macro `_RCT_FOLLY_PREFIX_PCH`.

We embed the relevant fragment of the C preprocessor shallowly: a source
file is a list of lines, where a line is either plain text or one of the
directives used in the discussion (ifndef / define / endif).  A
preprocessing environment maps macro names to `some value` when the macro
is defined and `none` when it is not.  The preprocessor walks the lines
with a stack of conditional states, emitting active text lines, pushing on
`ifndef`, popping on `endif`, and extending the environment on an active
`define`.
-/

/-- A preprocessing environment: `some v` when the macro is defined (to
value `v`), `none` when it is undefined. -/
abbrev Env := String → Option String

/-- A line of a source file at the granularity the patch uses: plain text,
or one of the conditional-compilation directives appearing in the file. -/
inductive Line where
  | text (s : String)
  | ifndef (sym : String)
  | define (sym : String)
  | endif
deriving DecidableEq

/-- Whether a line is a `define` directive. -/
def Line.isDefine : Line → Bool
  | Line.define _ => true
  | _ => false

/-- One pass of the preprocessor over a list of lines.  The `stack` holds
the state of enclosing conditionals (a text line is emitted only when all
of them are active); the result is the emitted text together with the
final environment and final conditional stack.  In a skipped group the
condition of a nested `ifndef` is not consulted and a `define` does not
take effect, as in the C preprocessor. -/
def ppAux : Env → List Bool → List Line → List String × Env × List Bool
  | env, stack, [] => ([], env, stack)
  | env, stack, Line.text s :: rest =>
    let r := ppAux env stack rest
    (if stack.all (fun b => b) then s :: r.1 else r.1, r.2)
  | env, stack, Line.ifndef sym :: rest =>
    ppAux env ((if stack.all (fun b => b) then (env sym).isNone else false) :: stack) rest
  | env, stack, Line.define sym :: rest =>
    if stack.all (fun b => b) then
      ppAux (fun s => if s = sym then some "" else env s) stack rest
    else
      ppAux env stack rest
  | env, stack, Line.endif :: rest =>
    ppAux env stack.tail rest

/-- The text emitted when the preprocessor runs on a file with an empty
conditional stack. -/
def preprocess (env : Env) (ls : List Line) : List String := (ppAux env [] ls).1

/-- The guard macro used by the patch. -/
def guardSym : String := "_RCT_FOLLY_PREFIX_PCH"

/-- The comment line the patch places before the conditional. -/
def commentLine : String := "// char_traits<unsigned char> is now defined in the prefix header"

/-- The line opening the specialization; its occurrences are what we count
as definitions of std::char_traits<unsigned char>. -/
def specLine : String := "struct char_traits<unsigned char> \x7b"

/-- The original, unguarded code block (spec lines 8-19 of the patch
file), line by line. -/
def originalLines : List Line :=
  [ Line.text "namespace std \x7b",
    Line.text "template<>",
    Line.text "struct char_traits<unsigned char> \x7b",
    Line.text "  using char_type = unsigned char;",
    Line.text "  using int_type = int;",
    Line.text "  using off_type = streamoff;",
    Line.text "  using pos_type = streampos;",
    Line.text "  using state_type = mbstate_t;",
    Line.text "",
    Line.text "  // ... implementation details ...",
    Line.text "\x7d;",
    Line.text "\x7d // namespace std" ]

/-- The patched code block (lines 25-40 of the patch file), line by
line: the comment, the `ifndef` on the guard macro, the specialization,
and the closing `endif`. -/
def patchedLines : List Line :=
  [ Line.text "// char_traits<unsigned char> is now defined in the prefix header",
    Line.ifndef "_RCT_FOLLY_PREFIX_PCH",
    Line.text "namespace std \x7b",
    Line.text "template<>",
    Line.text "struct char_traits<unsigned char> \x7b",
    Line.text "  using char_type = unsigned char;",
    Line.text "  using int_type = int;",
    Line.text "  using off_type = streamoff;",
    Line.text "  using pos_type = streampos;",
    Line.text "  using state_type = mbstate_t;",
    Line.text "",
    Line.text "  // ... implementation details ...",
    Line.text "\x7d;",
    Line.text "\x7d // namespace std",
    Line.endif ]

/-- The text of the original block, as emitted by the preprocessor. -/
def originalText : List String :=
  [ "namespace std \x7b",
    "template<>",
    "struct char_traits<unsigned char> \x7b",
    "  using char_type = unsigned char;",
    "  using int_type = int;",
    "  using off_type = streamoff;",
    "  using pos_type = streampos;",
    "  using state_type = mbstate_t;",
    "",
    "  // ... implementation details ...",
    "\x7d;",
    "\x7d // namespace std" ]

/-- How many times the specialization of char_traits<unsigned char> is
defined in a piece of emitted text. -/
def specCount (out : List String) : Nat := out.count specLine

/-- A piece of emitted text causes no redefinition error for the
specialization when it defines it at most once. -/
def noRedefinition (out : List String) : Prop := specCount out ≤ 1

/-- Whether a character sequence begins a C++ line comment. -/
def isCommentStart : List Char → Bool
  | '/' :: '/' :: _ => true
  | _ => false

/-- A line is a C++ declaration (rather than a comment or a blank line):
after leading spaces it is nonempty and does not start a line comment. -/
def isDeclLine (s : String) : Bool :=
  !(isCommentStart (s.data.dropWhile (fun c => c = ' '))) &&
    !(s.data.dropWhile (fun c => c = ' ')).isEmpty

/-- An environment in which no macro is defined. -/
def envNone : Env := fun _ => none

/-- Preprocessing distributes over concatenation of line lists: the second
list is processed starting from the environment and conditional stack the
first list ends in. -/
theorem ppAux_append (xs ys : List Line) (env : Env) (stack : List Bool) :
    ppAux env stack (xs ++ ys) =
      ((ppAux env stack xs).1 ++
         (ppAux (ppAux env stack xs).2.1 (ppAux env stack xs).2.2 ys).1,
       (ppAux (ppAux env stack xs).2.1 (ppAux env stack xs).2.2 ys).2) := by
  induction xs generalizing env stack with
  | nil => simp [ppAux]
  | cons l rest ih =>
    cases l with
    | text s => by_cases hs : stack.all (fun b => b) <;> simp [ppAux, hs, ih]
    | ifndef sym => simp [ppAux, ih]
    | define sym => by_cases hs : stack.all (fun b => b) <;> simp [ppAux, hs, ih]
    | endif => simp [ppAux, ih]

/-- With the guard macro undefined, the preprocessor emits the comment
followed by the full original block, leaves the environment unchanged and
ends with an empty conditional stack. -/
theorem ppAux_patched_none (env : Env) (h : env guardSym = none) :
    ppAux env [] patchedLines = (commentLine :: originalText, env, []) := by
  have h' : env "_RCT_FOLLY_PREFIX_PCH" = none := h
  simp [patchedLines, ppAux, h', commentLine, originalText]

/-- With the guard macro defined (to any value), the preprocessor emits
only the comment, leaves the environment unchanged and ends with an empty
conditional stack. -/
theorem ppAux_patched_some (env : Env) (v : String) (h : env guardSym = some v) :
    ppAux env [] patchedLines = ([commentLine], env, []) := by
  have h' : env "_RCT_FOLLY_PREFIX_PCH" = some v := h
  simp [patchedLines, ppAux, h', commentLine]

/-- The original, unguarded block always emits its full text. -/
theorem ppAux_original (env : Env) :
    ppAux env [] originalLines = (originalText, env, []) := by
  simp [originalLines, ppAux, originalText]

/-- Emission of the patched block under an undefined guard, at the level
of preprocess. -/
theorem preprocess_patched_none (env : Env) (h : env guardSym = none) :
    preprocess env patchedLines = commentLine :: originalText := by
  unfold preprocess
  rw [ppAux_patched_none env h]

/-- Emission of the patched block under a defined guard, at the level of
preprocess. -/
theorem preprocess_patched_some (env : Env) (v : String)
    (h : env guardSym = some v) :
    preprocess env patchedLines = [commentLine] := by
  unfold preprocess
  rw [ppAux_patched_some env v h]

/-- Emission of the original block, at the level of preprocess. -/
theorem preprocess_original (env : Env) :
    preprocess env originalLines = originalText := by
  unfold preprocess
  rw [ppAux_original env]

/-- An environment in which only the guard macro is defined. -/
def envPch : Env := fun s => if s = guardSym then some "1" else none

/-- An environment defining every macro, with a value differing from
the one in envPch. -/
def envAll : Env := fun _ => some "A"

/-- Number of definitions of the specialization visible in a translation
unit: the prefix header contributes one exactly when it supplies the
specialization, and the patched file contributes what the preprocessor
emits from it. -/
def tuDefs (pchSupplies : Bool) (env : Env) : Nat :=
  (if pchSupplies then 1 else 0) + specCount (preprocess env patchedLines)

/-- Claim C1: in a translation unit that includes the patched file with
the guard macro undefined, the specialization is emitted exactly once. -/
theorem patched_undef_emits_once (env : Env) (h : env guardSym = none) :
    specCount (preprocess env patchedLines) = 1 := by
  rw [preprocess_patched_none env h]
  decide

/-- Witness for C1 at the empty environment. -/
theorem patched_undef_emits_once_witness :
    specCount (preprocess envNone patchedLines) = 1 :=
  patched_undef_emits_once envNone rfl

/-- Claim C2: in a translation unit that includes the patched file with
the guard macro defined, the specialization is emitted zero times, so the
file contributes no duplicate definition. -/
theorem patched_def_emits_nothing (env : Env) (v : String)
    (h : env guardSym = some v) :
    specCount (preprocess env patchedLines) = 0 := by
  rw [preprocess_patched_some env v h]
  decide

/-- Witness for C2 at an environment defining only the guard macro. -/
theorem patched_def_emits_nothing_witness :
    specCount (preprocess envPch patchedLines) = 0 :=
  patched_def_emits_nothing envPch "1" (by decide)

/-- Claim C4: the patch is purely a conditional wrapper: the patched
block is exactly a comment, the guard conditional, the unchanged original
block, and the closing directive; and with the guard undefined the
declarations the patched block emits are exactly the declarations of the
original block. -/
theorem patched_is_wrapped_original :
    patchedLines =
      Line.text commentLine :: Line.ifndef guardSym ::
        (originalLines ++ [Line.endif]) ∧
    ∀ env : Env, env guardSym = none →
      (preprocess env patchedLines).filter isDeclLine =
        (preprocess env originalLines).filter isDeclLine := by
  constructor
  · decide
  · intro env h
    rw [preprocess_patched_none env h, preprocess_original env]
    decide

/-- Witness for C4 at the empty environment. -/
theorem patched_is_wrapped_original_witness :
    patchedLines =
      Line.text commentLine :: Line.ifndef guardSym ::
        (originalLines ++ [Line.endif]) ∧
    (preprocess envNone patchedLines).filter isDeclLine =
      (preprocess envNone originalLines).filter isDeclLine :=
  ⟨patched_is_wrapped_original.1, patched_is_wrapped_original.2 envNone rfl⟩

/-- Claim C6: with the guard macro defined, the patched file supplies no
definition of the specialization, so the translation unit contains a
definition only if the prefix header supplies it. -/
theorem defined_guard_needs_pch (env : Env) (v : String) (pchSupplies : Bool)
    (h : env guardSym = some v) :
    specCount (preprocess env patchedLines) = 0 ∧
      (1 ≤ tuDefs pchSupplies env → pchSupplies = true) := by
  have h0 : specCount (preprocess env patchedLines) = 0 := by
    rw [preprocess_patched_some env v h]
    decide
  refine ⟨h0, fun hge => ?_⟩
  cases pchSupplies with
  | true => rfl
  | false => simp [tuDefs, h0] at hge

/-- Witness for C6 at an environment defining only the guard macro. -/
theorem defined_guard_needs_pch_witness :
    specCount (preprocess envPch patchedLines) = 0 ∧
      (1 ≤ tuDefs true envPch → true = true) :=
  defined_guard_needs_pch envPch "1" true (by decide)

/-- Claim C7: the guard tests only definedness: two environments that
agree on whether the guard macro is defined make the patched file emit
identical output, whatever value the macro has and whatever the other
macros are. -/
theorem emission_depends_only_on_definedness (env1 env2 : Env)
    (h : (env1 guardSym).isNone = (env2 guardSym).isNone) :
    preprocess env1 patchedLines = preprocess env2 patchedLines := by
  cases h1 : env1 guardSym with
  | none =>
    have h2 : env2 guardSym = none := by
      rw [h1] at h
      exact Option.isNone_iff_eq_none.mp h.symm
    rw [preprocess_patched_none env1 h1, preprocess_patched_none env2 h2]
  | some v =>
    cases h2 : env2 guardSym with
    | none => rw [h1, h2] at h; simp at h
    | some w =>
      rw [preprocess_patched_some env1 v h1, preprocess_patched_some env2 w h2]

/-- Witness for C7: an environment defining every macro to one value and
an environment defining only the guard macro to another value produce the
same emission. -/
theorem emission_depends_only_on_definedness_witness :
    preprocess envAll patchedLines = preprocess envPch patchedLines :=
  emission_depends_only_on_definedness envAll envPch (by decide)

/-- Claim C8: with the guard macro defined, the whole namespace block is
suppressed: the patched file emits only the comment line, which is not a
declaration, so it contributes no declaration at all. -/
theorem defined_guard_frame (env : Env) (v : String)
    (h : env guardSym = some v) :
    preprocess env patchedLines = [commentLine] ∧
      (preprocess env patchedLines).filter isDeclLine = [] := by
  have hp : preprocess env patchedLines = [commentLine] :=
    preprocess_patched_some env v h
  exact ⟨hp, by rw [hp]; decide⟩

/-- Witness for C8 at an environment defining only the guard macro. -/
theorem defined_guard_frame_witness :
    preprocess envPch patchedLines = [commentLine] ∧
      (preprocess envPch patchedLines).filter isDeclLine = [] :=
  defined_guard_frame envPch "1" (by decide)

/-- Claim C9: the patched block contains no include guard (no define
directive at all), and including its text twice with the guard macro
undefined emits the specialization twice, a redefinition. -/
theorem no_include_guard_double_inclusion (env : Env) (h : env guardSym = none) :
    patchedLines.countP Line.isDefine = 0 ∧
      specCount (preprocess env (patchedLines ++ patchedLines)) = 2 := by
  refine ⟨by decide, ?_⟩
  have hpp : preprocess env (patchedLines ++ patchedLines) =
      (commentLine :: originalText) ++ (commentLine :: originalText) := by
    unfold preprocess
    rw [ppAux_append]
    rw [ppAux_patched_none env h]
    simp only [ppAux_patched_none env h]
  rw [hpp]
  decide

/-- Witness for C9 at the empty environment. -/
theorem no_include_guard_double_inclusion_witness :
    patchedLines.countP Line.isDefine = 0 ∧
      specCount (preprocess envNone (patchedLines ++ patchedLines)) = 2 :=
  no_include_guard_double_inclusion envNone rfl

/-- The name of a standard include guard for the patched header. -/
def includeGuardSym : String := "DEBUG_STRING_CONVERTIBLE_PATCH_H"

/-- The patched file wrapped in a standard include guard.  This models the
hypothesis of claim C3 that the header itself has include-guard behavior:
after the first inclusion the guard macro is defined and later inclusions
emit nothing. -/
def guardedHeader : List Line :=
  Line.ifndef includeGuardSym :: Line.define includeGuardSym ::
    (patchedLines ++ [Line.endif])

/-- Composing two preprocessed pieces when the result of the first is
known. -/
theorem ppAux_append_eq (xs ys : List Line) (env env2 : Env)
    (stack stack2 : List Bool) (out : List String)
    (hxs : ppAux env stack xs = (out, env2, stack2)) :
    ppAux env stack (xs ++ ys) =
      (out ++ (ppAux env2 stack2 ys).1, (ppAux env2 stack2 ys).2) := by
  rw [ppAux_append, hxs]

/-- First inclusion of the guarded header with both macros undefined:
the full patched emission appears and the include guard becomes defined. -/
theorem ppAux_guarded_first_none (env : Env)
    (h1 : env includeGuardSym = none) (h2 : env guardSym = none) :
    ppAux env [] guardedHeader =
      (commentLine :: originalText,
       fun s => if s = includeGuardSym then some "" else env s, []) := by
  have h1' : env "DEBUG_STRING_CONVERTIBLE_PATCH_H" = none := h1
  have h2' : env "_RCT_FOLLY_PREFIX_PCH" = none := h2
  simp [guardedHeader, patchedLines, ppAux, h1', h2', includeGuardSym,
    commentLine, originalText]

/-- First inclusion of the guarded header with the include guard undefined
and the patch guard defined: only the comment is emitted and the include
guard becomes defined. -/
theorem ppAux_guarded_first_some (env : Env) (v : String)
    (h1 : env includeGuardSym = none) (h2 : env guardSym = some v) :
    ppAux env [] guardedHeader =
      ([commentLine],
       fun s => if s = includeGuardSym then some "" else env s, []) := by
  have h1' : env "DEBUG_STRING_CONVERTIBLE_PATCH_H" = none := h1
  have h2' : env "_RCT_FOLLY_PREFIX_PCH" = some v := h2
  simp [guardedHeader, patchedLines, ppAux, h1', h2', includeGuardSym,
    commentLine]

/-- Once the include guard is defined, an inclusion of the guarded header
emits nothing and changes nothing. -/
theorem ppAux_guarded_skip (env : Env) (v : String)
    (h : env includeGuardSym = some v) :
    ppAux env [] guardedHeader = ([], env, []) := by
  have h' : env "DEBUG_STRING_CONVERTIBLE_PATCH_H" = some v := h
  simp [guardedHeader, patchedLines, ppAux, h', includeGuardSym]

/-- Once the include guard is defined, any number of inclusions of the
guarded header emit nothing and change nothing. -/
theorem ppAux_guarded_skip_replicate (env : Env) (v : String) (k : Nat)
    (h : env includeGuardSym = some v) :
    ppAux env [] (List.replicate k guardedHeader).flatten = ([], env, []) := by
  induction k with
  | zero => simp [ppAux]
  | succ n ih =>
    rw [List.replicate_succ, List.flatten_cons,
      ppAux_append_eq _ _ env env [] [] [] (ppAux_guarded_skip env v h)]
    rw [ih]
    rfl

/-- Claim C3: including the patched header two or more times in one
translation unit with a fixed guard state, under the hypothesis that the
header has standard include-guard behavior (modelled by wrapping it in an
include guard that is initially undefined), produces no redefinition of
the specialization. -/
theorem repeated_inclusion_no_redefinition (env : Env) (k : Nat)
    (h1 : env includeGuardSym = none) (hk : 2 ≤ k) :
    noRedefinition (preprocess env (List.replicate k guardedHeader).flatten) := by
  obtain ⟨m, rfl⟩ : ∃ m, k = m + 1 := ⟨k - 1, by omega⟩
  show specCount (preprocess env (List.replicate (m + 1) guardedHeader).flatten) ≤ 1
  unfold preprocess
  rw [List.replicate_succ, List.flatten_cons]
  cases h2 : env guardSym with
  | none =>
    rw [ppAux_append_eq _ _ env _ [] [] _ (ppAux_guarded_first_none env h1 h2)]
    rw [ppAux_guarded_skip_replicate _ "" m (by simp :
      (fun s => if s = includeGuardSym then some "" else env s) includeGuardSym
        = some "")]
    show specCount (commentLine :: originalText ++ ([] : List String)) ≤ 1
    decide
  | some v =>
    rw [ppAux_append_eq _ _ env _ [] [] _ (ppAux_guarded_first_some env v h1 h2)]
    rw [ppAux_guarded_skip_replicate _ "" m (by simp :
      (fun s => if s = includeGuardSym then some "" else env s) includeGuardSym
        = some "")]
    show specCount ([commentLine] ++ ([] : List String)) ≤ 1
    decide

/-- Witness for C3: two inclusions under the empty environment. -/
theorem repeated_inclusion_no_redefinition_witness :
    noRedefinition (preprocess envNone (List.replicate 2 guardedHeader).flatten) :=
  repeated_inclusion_no_redefinition envNone 2 rfl (by decide)

/-- The environment of a translation unit under the hypothesis of claim
C5: the prefix header, when used, defines the guard macro. -/
def envOfPch (pch : Bool) : Env :=
  fun s => if pch ∧ s = guardSym then some "1" else none

/-- Definitions of the specialization visible in a translation unit whose
prefix-header state is pch, under the hypothesis that the prefix header
supplies the specialization exactly when it defines the guard macro: the
prefix header contributes one definition exactly when it is used, and the
patched file contributes what the preprocessor emits from it. -/
def tuDefCount (pch : Bool) : Nat :=
  (if pch then 1 else 0) + specCount (preprocess (envOfPch pch) patchedLines)

/-- A translation unit has a duplicate- or missing-definition error for
the specialization when it does not see exactly one definition. -/
def tuError (pch : Bool) : Bool := tuDefCount pch != 1

/-- A build is a list of translation units, each recorded by its
prefix-header (hence guard) state; it errs when some unit does. -/
def buildError (b : List Bool) : Bool := b.any tuError

/-- Guard definedness is consistent across a build when all units agree. -/
def consistentBuild (b : List Bool) : Bool :=
  b.all (fun x => b.all (fun y => x == y))

/-- Claim C5 counterexample: in the build with one unit using the prefix
header and one unit not using it, guard definedness is inconsistent yet no
duplicate- or missing-definition error occurs, so an error does not occur
if and only if definedness is inconsistent. -/
theorem error_iff_inconsistent_counterexample :
    ¬ (buildError [true, false] = true ↔
        consistentBuild [true, false] = false) := by
  decide

/-- Claim C5 amended: assuming the prefix header defines the
specialization exactly when it defines the guard macro, every translation
unit sees exactly one definition of the specialization, so no duplicate-
or missing-definition error occurs in any build — whether or not guard
definedness is consistent across the units; in particular, with consistent
definedness no error occurs. -/
theorem no_build_error (b : List Bool) : buildError b = false := by
  simp only [buildError, List.any_eq_false]
  intro x hx
  cases x with
  | true => decide
  | false => decide

/-- Witness for the amended C5 at a concrete inconsistent build. -/
theorem no_build_error_witness : buildError [true, false] = false :=
  no_build_error [true, false]
